import Mathlib

/-!
Verification of the curve-availability builder and selection filter of the
FORCE-2020-Lithology map-dashboard notebook (`notebooks/03-Map-Dash.ipynb`).

The notebook's logical core is:
* `well_has_curve(row, data_df, curve)`: a well has a curve iff not all of
  its samples for that curve are null;
* the loop `for curve in curves: locations_df[curve] = ...` building the
  per-well availability booleans;
* the callback `update_output(curves, datasets, selected_items)` filtering
  the location table by required curves, dataset partition and the
  interactive map selection, and rendering the result as text.

We embed these shallowly: dataframes become lists of records, null-able
sample values become `Option ℚ`, and the plotly `selectedData` payload
becomes an optional list of well names (the `customdata` name of each
selected point) — `none` when no selection event has happened, `some pts`
when a selection payload arrived whose point list is `pts` (Python
truthiness of `selected_item['points']` is mirrored by an `isEmpty` test).
-/

namespace MapDash

/-- One row of `locations_df` as consumed by the callbacks: the well name,
its `Dataset` partition tag (`"Train"` or `"Test"` in the data), and the
boolean availability columns, read off by curve name. -/
structure Row where
  well : String
  dataset : String
  avail : String → Bool

/-- One row of `well_data_df` (a depth sample): the well name and, for each
curve column, a numeric-or-missing value (`none` models NaN/null). -/
structure Sample where
  well : String
  vals : String → Option ℚ

/-- The function `well_has_curve` from the notebook:
`not data_df.loc[data_df['WELL']==well_name, curve].isnull().all()` —
restrict the sample table to this well's rows and test whether not all of
the curve's values there are null. -/
def well_has_curve (well_name : String) (data : List Sample) (curve : String) : Bool :=
  !((data.filter (fun m => m.well == well_name)).all (fun m => (m.vals curve).isNone))

/-- The builder loop
`for curve in curves: locations_df[curve] = locations_df.apply(lambda row: well_has_curve(row, well_data_df, curve), axis=1)`:
every location row gains one boolean column per catalog curve. Columns
outside the catalog are never written by the loop and are read as `false`
here (no claim queries them). -/
def buildAvailability (locations : List Row) (data : List Sample)
    (catalog : List String) : List Row :=
  locations.map fun l =>
    { l with avail := fun c => if catalog.contains c then well_has_curve l.well data c
                               else false }

/-- The filtering pipeline of `update_output`:
`curve_mask = locations_df[curves].values.all(axis=1)`;
`dff = locations_df[curve_mask]`; `dff = dff[dff['Dataset'].isin(datasets)]`;
then the interactive-selection mask
`select_mask = dff['WELL'].isin(lasso_wells if lasso_wells else all_wells)`
where `lasso_wells` is the selected point names when a non-empty selection
payload exists and `None` otherwise, and `all_wells = dff['WELL']`. -/
def select_dff (table : List Row) (curves datasets : List String)
    (selected_items : Option (List String)) : List Row :=
  let dff1 := table.filter (fun r => curves.all (fun c => r.avail c))
  let dff2 := dff1.filter (fun r => datasets.contains r.dataset)
  let all_wells := dff2.map (·.well)
  let lasso_wells : Option (List String) :=
    match selected_items with
    | none => none
    | some pts => if pts.isEmpty then none else some pts
  let keep :=
    match lasso_wells with
    | some l => if l.isEmpty then all_wells else l
    | none => all_wells
  dff2.filter (fun r => keep.contains r.well)

/-- The line `well_names = dff['WELL'].values` in `update_output`. -/
def well_names (table : List Row) (curves datasets : List String)
    (selected_items : Option (List String)) : List String :=
  (select_dff table curves datasets selected_items).map (·.well)

/-- The line `num_wells = dff.shape[0]` in `update_output`. -/
def num_wells (table : List Row) (curves datasets : List String)
    (selected_items : Option (List String)) : Nat :=
  (select_dff table curves datasets selected_items).length

/-- The text returned by `update_output`:
`"\nYou have selected {} wells.\n\n".format(num_wells)` followed by
`"selected_wells = [" + ", ".join("'{}'".format(w) for w in well_names) + "]"`. -/
def update_output (table : List Row) (curves datasets : List String)
    (selected_items : Option (List String)) : String :=
  let output_text :=
    "\nYou have selected " ++ toString (num_wells table curves datasets selected_items)
      ++ " wells.\n\n"
  let well_list_text :=
    String.intercalate ", "
      ((well_names table curves datasets selected_items).map (fun w => "'" ++ w ++ "'"))
  output_text ++ ("selected_wells = [" ++ well_list_text ++ "]")

/-- The two-well availability table of the spec's §8 examples:
`A` has GR but not RHOB and is a Training well; `B` has GR and RHOB and is
a Test well (the data's partition tags are the strings `Train`/`Test`). -/
def exampleTable : List Row :=
  [{ well := "A", dataset := "Train", avail := fun c => c == "GR" },
   { well := "B", dataset := "Test", avail := fun c => c == "GR" || c == "RHOB" }]

/-- A single-well location list and a single-sample measurement table used
to instantiate the builder claims on concrete data: well `A` has one sample
whose `GR` value is present and all other curve values missing. -/
def witnessLoc : List Row :=
  [{ well := "A", dataset := "Train", avail := fun _ => false }]

/-- See `witnessLoc`. -/
def witnessData : List Sample :=
  [{ well := "A", vals := fun c => if c == "GR" then some 1 else none }]

/-! ### Basic lemmas about the selection pipeline -/

lemma contains_eq_true_of_mem {l : List String} {a : String} (h : a ∈ l) :
    l.contains a = true :=
  List.elem_iff.mpr h

lemma filter_contains_self_map (l : List Row) :
    l.filter (fun r => (l.map (·.well)).contains r.well) = l :=
  List.filter_eq_self.mpr fun _r hr =>
    contains_eq_true_of_mem (List.mem_map_of_mem (·.well) hr)

/-- When no selection event has happened (`selected_items is None`), the
mask `dff['WELL'].isin(all_wells)` keeps every row of `dff`. -/
lemma select_dff_none (table : List Row) (curves datasets : List String) :
    select_dff table curves datasets none
      = (table.filter (fun r => curves.all (fun c => r.avail c))).filter
          (fun r => datasets.contains r.dataset) := by
  simp only [select_dff]
  exact filter_contains_self_map _

/-- A selection payload with an empty point list leaves `lasso_wells`
falsy, so the filter again keeps every curve/partition-qualified row. -/
lemma select_dff_some_nil (table : List Row) (curves datasets : List String) :
    select_dff table curves datasets (some [])
      = (table.filter (fun r => curves.all (fun c => r.avail c))).filter
          (fun r => datasets.contains r.dataset) := by
  simp only [select_dff, List.isEmpty_nil]
  exact filter_contains_self_map _

/-- A non-empty selection payload makes the final mask
`dff['WELL'].isin(lasso_wells)`. -/
lemma select_dff_some_ne (table : List Row) (curves datasets : List String)
    {sel : List String} (hsel : sel ≠ []) :
    select_dff table curves datasets (some sel)
      = ((table.filter (fun r => curves.all (fun c => r.avail c))).filter
          (fun r => datasets.contains r.dataset)).filter
            (fun r => sel.contains r.well) := by
  have h : sel.isEmpty = false := by simpa [List.isEmpty_iff] using hsel
  simp only [select_dff, h, Bool.false_eq_true, if_false]

lemma well_has_curve_iff (wn : String) (data : List Sample) (c : String) :
    well_has_curve wn data c = true
      ↔ ∃ m ∈ data, m.well = wn ∧ (m.vals c).isSome := by
  simp only [well_has_curve, Bool.not_eq_true', List.all_eq_false, List.mem_filter,
    beq_iff_eq, Bool.not_eq_true, Option.isNone_eq_false_iff]
  constructor
  · rintro ⟨m, ⟨hm, hw⟩, hv⟩
    exact ⟨m, hm, hw, hv⟩
  · rintro ⟨m, hm, hw, hv⟩
    exact ⟨m, ⟨hm, hw⟩, hv⟩

/-! ### Claims -/

/-- C1: for every well (row `i` of the location table) and curve `c` of the
catalog, the availability boolean produced by the builder is `true` iff at
least one sample value for that well and curve in the measurement table is
present; in particular it is `false` when the well has no samples for the
curve, when all its samples are missing, or when the well is absent from
the measurement table altogether. -/
theorem C1_curve_availability (locations : List Row) (data : List Sample)
    (catalog : List String) (i : Nat) (c : String)
    (hi : i < locations.length) (hc : c ∈ catalog) :
    ∃ hb : i < (buildAvailability locations data catalog).length,
      ((buildAvailability locations data catalog).get ⟨i, hb⟩).well
          = (locations.get ⟨i, hi⟩).well ∧
      ((buildAvailability locations data catalog).get ⟨i, hb⟩).dataset
          = (locations.get ⟨i, hi⟩).dataset ∧
      (((buildAvailability locations data catalog).get ⟨i, hb⟩).avail c = true
        ↔ ∃ m ∈ data, m.well = (locations.get ⟨i, hi⟩).well ∧ (m.vals c).isSome) := by
  have hb : i < (buildAvailability locations data catalog).length := by
    simpa [buildAvailability] using hi
  refine ⟨hb, ?_⟩
  have hget : (buildAvailability locations data catalog).get ⟨i, hb⟩
      = { locations.get ⟨i, hi⟩ with
          avail := fun c => if catalog.contains c then
              well_has_curve (locations.get ⟨i, hi⟩).well data c else false } := by
    simp [buildAvailability, List.get_eq_getElem, List.getElem_map]
  rw [hget]
  refine ⟨rfl, rfl, ?_⟩
  show (if catalog.contains c = true then _ else false) = true ↔ _
  rw [if_pos (contains_eq_true_of_mem hc)]
  exact well_has_curve_iff _ _ _

/-- Witness for C1 at concrete data: well `A`, curve `GR` of a one-curve
catalog, one sample with a present `GR` value. -/
theorem C1_curve_availability_witness :
    0 < witnessLoc.length ∧ "GR" ∈ ["GR"] ∧
    ∃ hb : 0 < (buildAvailability witnessLoc witnessData ["GR"]).length,
      ((buildAvailability witnessLoc witnessData ["GR"]).get ⟨0, hb⟩).well
          = (witnessLoc.get ⟨0, Nat.one_pos⟩).well ∧
      ((buildAvailability witnessLoc witnessData ["GR"]).get ⟨0, hb⟩).dataset
          = (witnessLoc.get ⟨0, Nat.one_pos⟩).dataset ∧
      (((buildAvailability witnessLoc witnessData ["GR"]).get ⟨0, hb⟩).avail "GR" = true
        ↔ ∃ m ∈ witnessData,
            m.well = (witnessLoc.get ⟨0, Nat.one_pos⟩).well ∧ (m.vals "GR").isSome) :=
  ⟨Nat.one_pos, by simp,
    C1_curve_availability witnessLoc witnessData ["GR"] 0 "GR" Nat.one_pos (by simp)⟩

/-- C2: if the required-curve set is empty then every well qualifies on the
curve criterion (the curve mask keeps the whole table), and the selection
filter returns exactly the wells whose partition tag is in the partition
filter — no well is excluded for missing curves. -/
theorem C2_empty_required_curves (table : List Row) (datasets : List String) :
    table.filter (fun r => ([] : List String).all (fun c => r.avail c)) = table ∧
    well_names table [] datasets none
      = (table.filter (fun r => datasets.contains r.dataset)).map (·.well) := by
  constructor
  · simp
  · rw [well_names, select_dff_none]
    simp

/-- C3: an interactive selection that is present but empty behaves exactly
like no interactive restriction at all: the result is the full curve- and
partition-qualified set, not the empty set. -/
theorem C3_empty_interactive_selection (table : List Row)
    (curves datasets : List String) :
    well_names table curves datasets (some [])
      = well_names table curves datasets none ∧
    well_names table curves datasets (some [])
      = ((table.filter (fun r => curves.all (fun c => r.avail c))).filter
          (fun r => datasets.contains r.dataset)).map (·.well) := by
  rw [well_names, well_names, select_dff_none, select_dff_some_nil]
  exact ⟨rfl, rfl⟩

/-- C5: an empty partition filter yields the empty sequence, count 0, and
the text `"\nYou have selected 0 wells.\n\nselected_wells = []"`, with no
error for the empty result. -/
theorem C5_empty_partition_filter (table : List Row) (curves : List String)
    (si : Option (List String)) :
    well_names table curves [] si = [] ∧
    num_wells table curves [] si = 0 ∧
    update_output table curves [] si
      = "\nYou have selected 0 wells.\n\nselected_wells = []" := by
  have h : select_dff table curves [] si = [] := by
    simp [select_dff]
  refine ⟨by simp [well_names, h], by simp [num_wells, h], ?_⟩
  simp [update_output, num_wells, well_names, h]
  rfl

/-- C8: the selection filter preserves the relative order of the underlying
table: its result is a subsequence of the table (and the returned name
sequence a subsequence of the table's well column), stable, never
re-sorted. -/
theorem C8_order_preserved (table : List Row) (curves datasets : List String)
    (si : Option (List String)) :
    (select_dff table curves datasets si).Sublist table ∧
    (well_names table curves datasets si).Sublist (table.map (·.well)) := by
  have h : (select_dff table curves datasets si).Sublist table := by
    simp only [select_dff]
    exact (List.filter_sublist _).trans
      ((List.filter_sublist _).trans (List.filter_sublist _))
  refine ⟨h, ?_⟩
  rw [well_names]
  exact h.map (·.well)

/-- C9: the count reported in the first line of `update_output`'s text and
the identifier list rendered on its last line are computed from the same
filtered table: the count equals the length of the rendered name
sequence. -/
theorem C9_count_matches_list (table : List Row) (curves datasets : List String)
    (si : Option (List String)) :
    num_wells table curves datasets si
      = (well_names table curves datasets si).length := by
  simp [num_wells, well_names]

/-- C4: a present, non-empty interactive selection intersects the curve- and
partition-qualified wells with the selected identifier set; identifiers not
in the qualified set are silently dropped, so a selection of only unknown
identifiers yields the empty result (the intersection is a plain membership
filter, which never fails). -/
theorem C4_nonempty_interactive_selection (table : List Row)
    (curves datasets sel : List String) (hsel : sel ≠ []) :
    well_names table curves datasets (some sel)
      = (((table.filter (fun r => curves.all (fun c => r.avail c))).filter
            (fun r => datasets.contains r.dataset)).filter
          (fun r => sel.contains r.well)).map (·.well) := by
  rw [well_names, select_dff_some_ne table curves datasets hsel]

/-- Witness for C4: the spec's two-well table with the unknown selected
identifier `Z`; the intersection form holds and evaluates to the empty
result. -/
theorem C4_nonempty_interactive_selection_witness :
    (["Z"] : List String) ≠ [] ∧
    well_names exampleTable ["GR"] ["Train", "Test"] (some ["Z"])
      = (((exampleTable.filter (fun r => List.all ["GR"] (fun c => r.avail c))).filter
            (fun r => List.contains ["Train", "Test"] r.dataset)).filter
          (fun r => List.contains ["Z"] r.well)).map (·.well) ∧
    well_names exampleTable ["GR"] ["Train", "Test"] (some ["Z"]) = [] :=
  ⟨List.cons_ne_nil _ _,
    C4_nonempty_interactive_selection exampleTable ["GR"] ["Train", "Test"] ["Z"]
      (List.cons_ne_nil _ _),
    rfl⟩

/-- C6: the rendered text is exactly a newline, the count line
`You have selected {n} wells.`, a blank line, then
`selected_wells = [...]` with comma-space-separated single-quoted
identifiers; on the spec's §8 two-well table with required curves GR and
RHOB and both partitions it is
`"\nYou have selected 1 wells.\n\nselected_wells = ['B']"`. -/
theorem C6_rendered_text_format :
    (∀ (table : List Row) (curves datasets : List String) (si : Option (List String)),
      update_output table curves datasets si
        = "\nYou have selected "
            ++ toString (num_wells table curves datasets si)
            ++ " wells.\n\nselected_wells = ["
            ++ String.intercalate ", "
                ((well_names table curves datasets si).map (fun w => "'" ++ w ++ "'"))
            ++ "]")
    ∧ update_output exampleTable ["GR", "RHOB"] ["Train", "Test"] none
        = "\nYou have selected 1 wells.\n\nselected_wells = ['B']" := by
  constructor
  · intro table curves datasets si
    rw [update_output]
    simp only [String.append_assoc]
    rw [show (" wells.\n\nselected_wells = [" : String)
        = " wells.\n\n" ++ "selected_wells = [" from rfl, String.append_assoc]
  · rfl

lemma num_wells_le_of_qualified_sublist (table : List Row)
    (curves curves' datasets datasets' : List String) (si : Option (List String))
    (h : ((table.filter (fun r => curves'.all (fun c => r.avail c))).filter
            (fun r => datasets'.contains r.dataset)).Sublist
          ((table.filter (fun r => curves.all (fun c => r.avail c))).filter
            (fun r => datasets.contains r.dataset))) :
    num_wells table curves' datasets' si ≤ num_wells table curves datasets si := by
  match si with
  | none =>
      rw [num_wells, num_wells, select_dff_none, select_dff_none]
      exact h.length_le
  | some [] =>
      rw [num_wells, num_wells, select_dff_some_nil, select_dff_some_nil]
      exact h.length_le
  | some (x :: xs) =>
      rw [num_wells, num_wells, select_dff_some_ne _ _ _ (List.cons_ne_nil x xs),
        select_dff_some_ne _ _ _ (List.cons_ne_nil x xs)]
      exact (h.filter _).length_le

/-- C7: monotonicity of the selection filter — requiring one more curve
never increases the result count, and shrinking the partition filter to a
subset never increases the result count. -/
theorem C7_monotonicity (table : List Row) (curves datasets datasets' : List String)
    (si : Option (List String)) (c : String) (hd : datasets' ⊆ datasets) :
    num_wells table (c :: curves) datasets si ≤ num_wells table curves datasets si ∧
    num_wells table curves datasets' si ≤ num_wells table curves datasets si := by
  constructor
  · apply num_wells_le_of_qualified_sublist
    apply List.Sublist.filter
    apply List.monotone_filter_right
    intro r hr
    simp only [List.all_cons, Bool.and_eq_true] at hr
    exact hr.2
  · apply num_wells_le_of_qualified_sublist
    apply List.monotone_filter_right
    intro r hr
    exact contains_eq_true_of_mem (hd (List.elem_iff.mp hr))

/-- Witness for C7: on the spec's two-well table, adding RHOB to the
required curves and dropping Test from the partition filter both give
counts bounded by the original count. -/
theorem C7_monotonicity_witness :
    (["Train"] : List String) ⊆ ["Train", "Test"] ∧
    (num_wells exampleTable ["RHOB", "GR"] ["Train", "Test"] none
        ≤ num_wells exampleTable ["GR"] ["Train", "Test"] none ∧
     num_wells exampleTable ["GR"] ["Train"] none
        ≤ num_wells exampleTable ["GR"] ["Train", "Test"] none) :=
  ⟨by simp,
    C7_monotonicity exampleTable ["GR"] ["Train", "Test"] ["Train"] none "RHOB"
      (by simp)⟩

/-- C10: with a present, non-empty interactive selection, the result (and
rendered text) depends only on the selection's identifier set — duplicated
or reordered identifiers change nothing, because the filter tests set
membership over the table. -/
theorem C10_selection_is_a_set (table : List Row)
    (curves datasets sel sel' : List String)
    (h1 : sel ≠ []) (h2 : sel' ≠ []) (hmem : ∀ x : String, x ∈ sel ↔ x ∈ sel') :
    well_names table curves datasets (some sel)
        = well_names table curves datasets (some sel') ∧
    update_output table curves datasets (some sel)
        = update_output table curves datasets (some sel') := by
  have hsel : select_dff table curves datasets (some sel)
      = select_dff table curves datasets (some sel') := by
    rw [select_dff_some_ne table curves datasets h1,
      select_dff_some_ne table curves datasets h2]
    apply List.filter_congr
    intro r _
    rw [Bool.eq_iff_iff]
    constructor
    · intro h
      exact contains_eq_true_of_mem ((hmem _).mp (List.elem_iff.mp h))
    · intro h
      exact contains_eq_true_of_mem ((hmem _).mpr (List.elem_iff.mp h))
  exact ⟨by rw [well_names, well_names, hsel],
    by rw [update_output, update_output, num_wells, num_wells,
      well_names, well_names, hsel]⟩

/-- Witness for C10: the duplicated, reordered selection `[Z, B, B]` and
the selection `[B, Z]` give identical output on the spec's two-well
table. -/
theorem C10_selection_is_a_set_witness :
    (["Z", "B", "B"] : List String) ≠ [] ∧ (["B", "Z"] : List String) ≠ [] ∧
    (∀ x : String, x ∈ (["Z", "B", "B"] : List String)
        ↔ x ∈ (["B", "Z"] : List String)) ∧
    (well_names exampleTable ["GR"] ["Train", "Test"] (some ["Z", "B", "B"])
        = well_names exampleTable ["GR"] ["Train", "Test"] (some ["B", "Z"]) ∧
     update_output exampleTable ["GR"] ["Train", "Test"] (some ["Z", "B", "B"])
        = update_output exampleTable ["GR"] ["Train", "Test"] (some ["B", "Z"])) :=
  ⟨List.cons_ne_nil _ _, List.cons_ne_nil _ _,
    fun x => by
      simp only [List.mem_cons, List.not_mem_nil, or_false]
      tauto,
    C10_selection_is_a_set exampleTable ["GR"] ["Train", "Test"]
      ["Z", "B", "B"] ["B", "Z"] (List.cons_ne_nil _ _) (List.cons_ne_nil _ _)
      (fun x => by
        simp only [List.mem_cons, List.not_mem_nil, or_false]
        tauto)⟩

end MapDash
